import Mathlib

/-!
Shallow embedding of `src/dv01_challenge.py`.

The program reads loan records, drops records with a null `grade`, merges
grades "F" and "G" into the bucket "FG", builds one summary row per bucket
(sorted by label) and a final "All" row, and formats the result.

Modelling conventions, matching the pandas semantics of the source:
* a missing cell (`NaN`) is `none : Option ℚ`; a pandas groupby-sum assigned
  into a fixed index yields `NaN` exactly for the index keys that have no
  matching record, which is the `condSum` definition below;
* `DataFrame.sum` (line 50 of the source) skips `NaN`, which is
  `Option.getD 0` below;
* Python `float` parsing of the percentage string (line 46) is embedded as
  `pyFloat`, covering optional surrounding ASCII whitespace, an optional
  sign, decimal digits with underscores between digits, an optional decimal
  point and an optional exponent.  The special spellings `inf`/`nan`, which
  produce non-finite floats that have no image in `ℚ`, are treated as
  unparseable, and only ASCII digits are modelled;
* Python `"{:,.0f}"` / `"{:,.2%}"` formatting is embedded with exact
  round-half-to-even on `ℚ` and comma grouping of the integer part.
-/

structure LoanRecord where
  grade : Option String
  loan_amnt : ℚ
  loan_status : String
  out_prncp : ℚ
  total_pymnt : ℚ
  total_rec_int : ℚ
  total_rec_late_fee : ℚ
  int_rate : String
  deriving DecidableEq, Repr

structure SummaryRow where
  key : String
  total_issued : ℚ
  fully_paid : Option ℚ
  current : Option ℚ
  late : Option ℚ
  charged_off_net : Option ℚ
  principal_payments_received : Option ℚ
  interest_payments_received : ℚ
  avg_interest_rate : Option ℚ
  deriving DecidableEq, Repr

/-! ### Python float parsing (source line 46: `.str.strip("%").astype(float) / 100`) -/

def isWsChar (c : Char) : Bool :=
  c = ' ' || c = '\t' || c = '\n' || c = '\r' || c = '\x0b' || c = '\x0c'

def trimWs (cs : List Char) : List Char :=
  ((cs.dropWhile isWsChar).reverse.dropWhile isWsChar).reverse

/-- Python `str.strip("%")`: remove every leading and trailing `%`. -/
def stripPct (s : String) : String :=
  ⟨((s.data.dropWhile (· = '%')).reverse.dropWhile (· = '%')).reverse⟩

/-- Underscores are legal only directly between two digits; remove them,
failing on any other underscore (CPython numeric-literal rule). -/
def deUnderscore : List Char → Option (List Char)
  | [] => some []
  | a :: '_' :: b :: rest =>
      if a.isDigit && b.isDigit then (deUnderscore (b :: rest)).map (a :: ·) else none
  | '_' :: _ => none
  | a :: rest => (deUnderscore rest).map (a :: ·)

def natVal (ds : List Char) : ℕ :=
  ds.foldl (fun n c => 10 * n + (c.toNat - '0'.toNat)) 0

def qpow10 (z : ℤ) : ℚ :=
  if 0 ≤ z then (10 : ℚ) ^ z.toNat else 1 / (10 : ℚ) ^ (-z).toNat

/-- Parse the optional exponent suffix; the whole rest must be consumed. -/
def expPart : List Char → Option ℤ
  | [] => some 0
  | c :: rest =>
      if c = 'e' ∨ c = 'E' then
        match rest with
        | '+' :: r =>
            let p := r.span Char.isDigit
            if p.1.isEmpty || !p.2.isEmpty then none else some (natVal p.1 : ℤ)
        | '-' :: r =>
            let p := r.span Char.isDigit
            if p.1.isEmpty || !p.2.isEmpty then none else some (-(natVal p.1 : ℤ))
        | r =>
            let p := r.span Char.isDigit
            if p.1.isEmpty || !p.2.isEmpty then none else some (natVal p.1 : ℤ)
      else none

/-- Parse the mantissa `digits [. digits]` (at least one digit overall),
returning its value and the unconsumed rest. -/
def mantPart (cs : List Char) : Option (ℚ × List Char) :=
  let ip := cs.span Char.isDigit
  match ip.2 with
  | '.' :: r2 =>
      let fp := r2.span Char.isDigit
      if ip.1.isEmpty && fp.1.isEmpty then none
      else some ((natVal ip.1 : ℚ) + (natVal fp.1 : ℚ) / (10 : ℚ) ^ fp.1.length, fp.2)
  | _ => if ip.1.isEmpty then none else some ((natVal ip.1 : ℚ), ip.2)

/-- Python `float(s)` on finite decimal literals, as an exact rational. -/
def pyFloat (s : String) : Option ℚ :=
  match deUnderscore (trimWs s.data) with
  | none => none
  | some cs1 =>
      let sm : ℚ × List Char :=
        match cs1 with
        | '+' :: r => (1, r)
        | '-' :: r => (-1, r)
        | r => (1, r)
      match mantPart sm.2 with
      | none => none
      | some (m, rest) =>
          match expPart rest with
          | none => none
          | some e => some (sm.1 * m * qpow10 e)

/-- The fractional rate of a record: parsed percentage divided by 100. -/
def rateVal (r : LoanRecord) : Option ℚ :=
  (pyFloat (stripPct r.int_rate)).map (fun v => v / 100)

/-- The rate value actually used in the weighted sums (defined whenever the
table is produced at all, since a parse failure aborts the whole table). -/
def rateD (r : LoanRecord) : ℚ :=
  (rateVal r).getD 0

/-! ### Aggregation (source lines 19-53, `create_table`) -/

/-- Source line 20: drop records whose grade is null. -/
def dataCln (rs : List LoanRecord) : List LoanRecord :=
  rs.filter (fun r => r.grade.isSome)

/-- Source lines 22-23: grades "F" and "G" map to bucket "FG". -/
def grade2 (r : LoanRecord) : String :=
  if r.grade.getD "" = "F" ∨ r.grade.getD "" = "G" then "FG" else r.grade.getD ""

/-- Lexicographic comparison of char lists by code point (Python `str` order). -/
def strLtB : List Char → List Char → Bool
  | [], [] => false
  | [], _ :: _ => true
  | _ :: _, [] => false
  | a :: as, b :: bs =>
      if a.toNat < b.toNat then true
      else if b.toNat < a.toNat then false
      else strLtB as bs

def strLeB (a b : String) : Bool :=
  !(strLtB b.data a.data)

/-- Source line 25: distinct bucket labels, sorted ascending. -/
def keysOf (ds : List LoanRecord) : List String :=
  List.insertionSort (fun a b => strLeB a b = true) (ds.map grade2).dedup

def bucketRecs (ds : List LoanRecord) (b : String) : List LoanRecord :=
  ds.filter (fun r => grade2 r = b)

/-- A filtered groupby-sum cell: `NaN` (`none`) when no record of the bucket
matches the predicate, else the sum of `f` over the matching records. -/
def condSum (l : List LoanRecord) (p : LoanRecord → Bool) (f : LoanRecord → ℚ) : Option ℚ :=
  if l.filter p = [] then none else some (((l.filter p).map f).sum)

def isCurrentStatus (r : LoanRecord) : Bool :=
  r.loan_status = "Current" || r.loan_status = "In Grace Period"

def leadsList : List Char → List Char → Bool
  | [], _ => true
  | _ :: _, [] => false
  | a :: as, b :: bs => a = b && leadsList as bs

def hasSub (pat : List Char) : List Char → Bool
  | [] => leadsList pat []
  | c :: cs => leadsList pat (c :: cs) || hasSub pat cs

/-- Source line 34: status contains "Late" or equals "Default". -/
def isLateStatus (r : LoanRecord) : Bool :=
  hasSub "Late".data r.loan_status.data || r.loan_status = "Default"

def isFullyPaidStatus (r : LoanRecord) : Bool :=
  r.loan_status = "Fully Paid"

def isChargedOffStatus (r : LoanRecord) : Bool :=
  r.loan_status = "Charged Off"

/-- Source line 38: per-record net charge-off amount. -/
def chargeOffAmt (r : LoanRecord) : ℚ :=
  r.loan_amnt - r.total_pymnt + r.total_rec_int + r.total_rec_late_fee

/-- `NaN`-propagating subtraction of cells. -/
def oSub : Option ℚ → Option ℚ → Option ℚ
  | some a, some b => some (a - b)
  | _, _ => none

def tIssued (ds : List LoanRecord) (b : String) : ℚ :=
  ((bucketRecs ds b).map (·.loan_amnt)).sum

def fpaid (ds : List LoanRecord) (b : String) : Option ℚ :=
  condSum (bucketRecs ds b) isFullyPaidStatus (·.loan_amnt)

def curr (ds : List LoanRecord) (b : String) : Option ℚ :=
  condSum (bucketRecs ds b) isCurrentStatus (·.out_prncp)

def lateM (ds : List LoanRecord) (b : String) : Option ℚ :=
  condSum (bucketRecs ds b) isLateStatus (·.out_prncp)

def chOff (ds : List LoanRecord) (b : String) : Option ℚ :=
  condSum (bucketRecs ds b) isChargedOffStatus chargeOffAmt

/-- Source lines 41-42: derived from the already-computed columns. -/
def pprM (ds : List LoanRecord) (b : String) : Option ℚ :=
  oSub (oSub (oSub (some (tIssued ds b)) (curr ds b)) (lateM ds b)) (chOff ds b)

def intRec (ds : List LoanRecord) (b : String) : ℚ :=
  ((bucketRecs ds b).map (·.total_rec_int)).sum

/-- Principal-weighted average rate over a record list; `NaN` when the
total loan amount is zero (0/0 in the source). -/
def wavg (l : List LoanRecord) : Option ℚ :=
  if (l.map (·.loan_amnt)).sum = 0 then none
  else some ((l.map (fun r => rateD r * r.loan_amnt)).sum / (l.map (·.loan_amnt)).sum)

def bucketRow (ds : List LoanRecord) (b : String) : SummaryRow :=
  ⟨b, tIssued ds b, fpaid ds b, curr ds b, lateM ds b, chOff ds b, pprM ds b,
    intRec ds b, wavg (bucketRecs ds b)⟩

def tableRows (ds : List LoanRecord) : List SummaryRow :=
  (keysOf ds).map (bucketRow ds)

/-- Source lines 50-51: the "All" row is the `NaN`-skipping column sum of the
bucket rows, with the average rate recomputed over the whole cleaned set. -/
def allRow (rows : List SummaryRow) (ds : List LoanRecord) : SummaryRow :=
  ⟨"All",
    (rows.map (·.total_issued)).sum,
    some ((rows.map (fun r => r.fully_paid.getD 0)).sum),
    some ((rows.map (fun r => r.current.getD 0)).sum),
    some ((rows.map (fun r => r.late.getD 0)).sum),
    some ((rows.map (fun r => r.charged_off_net.getD 0)).sum),
    some ((rows.map (fun r => r.principal_payments_received.getD 0)).sum),
    (rows.map (·.interest_payments_received)).sum,
    wavg ds⟩

/-- The table over an already grade-filtered record list.  `none` models the
abort on a rate parse failure.  When "All" is itself a bucket label, the
synthetic row overwrites that bucket's row in place (`.loc["All"] = ...`);
otherwise it is appended last. -/
def tableOf (ds : List LoanRecord) : Option (List SummaryRow) :=
  if ds.all (fun r => (rateVal r).isSome) then
    some (if "All" ∈ keysOf ds then
            (tableRows ds).map (fun r => if r.key = "All" then allRow (tableRows ds) ds else r)
          else tableRows ds ++ [allRow (tableRows ds) ds])
  else none

/-- Source `create_table`, from a record list instead of a csv path. -/
def create_table (rs : List LoanRecord) : Option (List SummaryRow) :=
  tableOf (dataCln rs)

/-! ### Formatting (source lines 55-66, `format_table`) -/

structure DisplayRow where
  key : String
  total_issued : String
  fully_paid : String
  current : String
  late : String
  charged_off_net : String
  principal_payments_received : String
  interest_payments_received : String
  avg_interest_rate : String
  deriving DecidableEq, Repr

def qfloor (q : ℚ) : ℤ :=
  q.num.fdiv (q.den : ℤ)

/-- Round to the nearest integer, ties to even (Python float formatting). -/
def roundHalfEven (q : ℚ) : ℤ :=
  if q - (qfloor q : ℚ) < 1 / 2 then qfloor q
  else if (1 : ℚ) / 2 < q - (qfloor q : ℚ) then qfloor q + 1
  else if qfloor q % 2 = 0 then qfloor q else qfloor q + 1

/-- Insert a comma after every third digit of a reversed digit list. -/
def group3 : List Char → List Char
  | a :: b :: c :: d :: rest => a :: b :: c :: ',' :: group3 (d :: rest)
  | l => l

def natComma (n : ℕ) : String :=
  ⟨(group3 (Nat.repr n).data.reverse).reverse⟩

/-- Python `"{:,.0f}".format`: round, comma-group, keep the sign of the
value (so a negative value rounding to zero prints `-0`). -/
def moneyStr (q : ℚ) : String :=
  (if q < 0 then "-" else "") ++ natComma (roundHalfEven q).natAbs

def dollarFmt : Option ℚ → String
  | none => "$nan"
  | some q => "$" ++ moneyStr q

def twoDig (k : ℕ) : String :=
  if k < 10 then "0" ++ Nat.repr k else Nat.repr k

/-- Format a number with comma grouping and exactly two decimals. -/
def pctStr (q : ℚ) : String :=
  (if q < 0 then "-" else "") ++
    natComma ((roundHalfEven (q * 100)).natAbs / 100) ++ "." ++
    twoDig ((roundHalfEven (q * 100)).natAbs % 100)

/-- Python `"{:,.2%}".format`: value times 100, two decimals, trailing `%`. -/
def pctFmt : Option ℚ → String
  | none => "nan%"
  | some v => pctStr (v * 100) ++ "%"

def format_row (r : SummaryRow) : DisplayRow :=
  ⟨r.key, dollarFmt (some r.total_issued), dollarFmt r.fully_paid, dollarFmt r.current,
    dollarFmt r.late, dollarFmt r.charged_off_net, dollarFmt r.principal_payments_received,
    dollarFmt (some r.interest_payments_received), pctFmt r.avg_interest_rate⟩

/-- Source `format_table`: every row formatted, order preserved. -/
def format_table (t : List SummaryRow) : List DisplayRow :=
  t.map format_row

/-! ### Specification-side definition and example inputs -/

/-- The weighted average the specification prescribes for the "All" row,
written from the spec's words: `sum(rate_i * loan_amount_i) /
sum(loan_amount_i)` over every record surviving the null-grade filter,
undefined when the total loan amount is zero. -/
def specAllAvgRate (rs : List LoanRecord) : Option ℚ :=
  if ((rs.filter (fun r => r.grade.isSome)).map (fun r => r.loan_amnt)).sum = 0 then none
  else some (((rs.filter (fun r => r.grade.isSome)).map (fun r => rateD r * r.loan_amnt)).sum /
    ((rs.filter (fun r => r.grade.isSome)).map (fun r => r.loan_amnt)).sum)

/-- The accounting identity of claim C2, read on a row with possibly missing
cells: all four cells are present and they balance against the total. -/
def rowIdentityHolds (row : SummaryRow) : Prop :=
  ∃ c l x p, row.current = some c ∧ row.late = some l ∧ row.charged_off_net = some x ∧
    row.principal_payments_received = some p ∧ row.total_issued = c + l + x + p

/-- First record of the spec's end-to-end scenario. -/
def recA1 : LoanRecord := ⟨some "A", 1000, "Fully Paid", 0, 0, 0, 0, "10%"⟩

def recA2 : LoanRecord := ⟨some "A", 2000, "Current", 1500, 0, 0, 0, "12%"⟩

def recF3 : LoanRecord := ⟨some "F", 500, "Charged Off", 0, 100, 20, 5, "20%"⟩

/-- The three-record input of the spec's end-to-end scenario. -/
def exScenario : List LoanRecord := [recA1, recA2, recF3]

/-- The table the code actually produces on `exScenario`. -/
def tblScenario : List SummaryRow :=
  [⟨"A", 3000, some 1000, some 1500, none, none, none, 0, some (17 / 150)⟩,
   ⟨"FG", 500, none, none, none, some 425, none, 20, some (1 / 5)⟩,
   ⟨"All", 3500, some 1000, some 1500, some 0, some 425, some 0, 20, some (22 / 175)⟩]

/-- The "All" row of `tblScenario`. -/
def allScen : SummaryRow :=
  ⟨"All", 3500, some 1000, some 1500, some 0, some 425, some 0, 20, some (22 / 175)⟩

/-- One bucket with a current, a late and a charged-off loan but no
fully-paid loan. -/
def exThreeStatus : List LoanRecord :=
  [⟨some "A", 1000, "Current", 100, 0, 0, 0, "10%"⟩,
   ⟨some "A", 500, "Late (31-120 days)", 50, 0, 0, 0, "10%"⟩,
   ⟨some "A", 200, "Charged Off", 0, 50, 10, 5, "10%"⟩]

/-- The "A" row the code produces on `exThreeStatus`. -/
def rowThreeA : SummaryRow :=
  ⟨"A", 1700, none, some 100, some 50, some 165, some 1385, 10, some (1 / 10)⟩

/-- The table the code produces on `exThreeStatus`. -/
def tblThreeStatus : List SummaryRow :=
  [rowThreeA,
   ⟨"All", 1700, some 0, some 100, some 50, some 165, some 1385, 10, some (1 / 10)⟩]

/-- Two buckets with different amounts and rates, so that the weighted
average across buckets differs from the unweighted mean of bucket rates. -/
def exWeighted : List LoanRecord :=
  [⟨some "A", 1000, "Current", 0, 0, 0, 0, "10%"⟩,
   ⟨some "B", 3000, "Current", 0, 0, 0, 0, "20%"⟩]

/-- The "All" row the code produces on `exWeighted`. -/
def allWeighted : SummaryRow :=
  ⟨"All", 4000, some 0, some 0, some 0, some 0, some 0, 0, some (7 / 40)⟩

/-- The table the code produces on `exWeighted`. -/
def tblWeighted : List SummaryRow :=
  [⟨"A", 1000, none, some 0, none, none, none, 0, some (1 / 10)⟩,
   ⟨"B", 3000, none, some 0, none, none, none, 0, some (1 / 5)⟩,
   allWeighted]

/-- An input in which one record's grade is literally the string "All". -/
def exGradeAll : List LoanRecord :=
  [⟨some "All", 100, "Current", 50, 0, 0, 0, "10%"⟩,
   ⟨some "B", 100, "Current", 60, 0, 0, 0, "10%"⟩]

/-- A record whose interest-rate string cannot be parsed as a number. -/
def recBadRate : LoanRecord := ⟨some "A", 1000, "Current", 0, 0, 0, 0, "1o%"⟩

/-- The table the code produces on the single-record input `[recF3]`. -/
def tblSingleF : List SummaryRow :=
  [⟨"FG", 500, none, none, none, some 425, none, 20, some (1 / 5)⟩,
   ⟨"All", 500, some 0, some 0, some 0, some 425, some 0, 20, some (1 / 5)⟩]

/-! ### Order facts for the bucket index -/

theorem strLtB_iff : ∀ (x y : List Char), strLtB x y = true ↔ List.Lex (· < ·) x y
  | [], [] => by
      constructor
      · intro h; exact Bool.noConfusion h
      · intro h; nomatch h
  | [], _ :: _ => by
      constructor
      · intro _; exact List.Lex.nil
      · intro _; rfl
  | _ :: _, [] => by
      constructor
      · intro h; exact Bool.noConfusion h
      · intro h; nomatch h
  | a :: as, b :: bs => by
      unfold strLtB
      by_cases h1 : a.toNat < b.toNat
      · rw [if_pos h1]
        exact iff_of_true rfl (List.Lex.rel h1)
      · rw [if_neg h1]
        by_cases h2 : b.toNat < a.toNat
        · rw [if_pos h2]
          constructor
          · intro h; exact Bool.noConfusion h
          · intro h
            cases h with
            | rel hab => exact absurd hab h1
            | cons _ => exact absurd h2 (Nat.lt_irrefl _)
        · rw [if_neg h2]
          rw [strLtB_iff as bs]
          constructor
          · intro h
            have h1' : ¬ a < b := h1
            have h2' : ¬ b < a := h2
            have hEq : a = b := le_antisymm (not_lt.mp h2') (not_lt.mp h1')
            rw [hEq]
            exact List.Lex.cons h
          · intro h
            cases h with
            | rel hab => exact absurd hab h1
            | cons htl => exact htl

theorem strLeB_iff (a b : String) : strLeB a b = true ↔ a ≤ b := by
  constructor
  · intro h
    show ¬ b < a
    intro hlt
    have hx := (strLtB_iff b.data a.data).mpr (String.lt_iff_toList_lt.mp hlt)
    unfold strLeB at h
    rw [hx] at h
    exact Bool.noConfusion h
  · intro h
    unfold strLeB
    by_cases hb : strLtB b.data a.data = true
    · exact absurd (String.lt_iff_toList_lt.mpr ((strLtB_iff _ _).mp hb)) h
    · rw [Bool.not_eq_true] at hb
      rw [hb]
      rfl

instance : IsTotal String (fun a b => strLeB a b = true) :=
  ⟨fun a b => by rw [strLeB_iff a b, strLeB_iff b a]; exact le_total a b⟩

instance : IsTrans String (fun a b => strLeB a b = true) :=
  ⟨fun a b c hab hbc => by
    rw [strLeB_iff] at hab hbc ⊢
    exact le_trans hab hbc⟩

theorem nodup_keysOf (ds : List LoanRecord) : (keysOf ds).Nodup :=
  ((List.perm_insertionSort _ _).nodup_iff).mpr (List.nodup_dedup _)

theorem sorted_keysOf (ds : List LoanRecord) : (keysOf ds).Sorted (· < ·) := by
  have hs : (keysOf ds).Sorted (fun a b => strLeB a b = true) :=
    List.sorted_insertionSort _ _
  exact (hs.and (nodup_keysOf ds)).imp
    (fun hab => lt_of_le_of_ne ((strLeB_iff _ _).mp hab.1) hab.2)

theorem mem_keysOf {ds : List LoanRecord} {b : String} :
    b ∈ keysOf ds ↔ ∃ r ∈ ds, grade2 r = b := by
  unfold keysOf
  rw [List.mem_insertionSort, List.mem_dedup, List.mem_map]

/-! ### Structure of the produced table -/

theorem mem_table {rs : List LoanRecord} {t : List SummaryRow} (h : create_table rs = some t)
    {row : SummaryRow} (hrow : row ∈ t) :
    row = allRow (tableRows (dataCln rs)) (dataCln rs) ∨
      ∃ b ∈ keysOf (dataCln rs), b ≠ "All" ∧ row = bucketRow (dataCln rs) b := by
  unfold create_table tableOf at h
  split at h
  case isFalse => simp at h
  case isTrue =>
    rw [Option.some.injEq] at h
    subst h
    by_cases hall : "All" ∈ keysOf (dataCln rs)
    · rw [if_pos hall] at hrow
      obtain ⟨r0, hr0, hf⟩ := List.mem_map.mp hrow
      obtain ⟨b, hb, rfl⟩ := List.mem_map.mp hr0
      by_cases hbAll : (bucketRow (dataCln rs) b).key = "All"
      · rw [if_pos hbAll] at hf
        exact Or.inl hf.symm
      · rw [if_neg hbAll] at hf
        exact Or.inr ⟨b, hb, hbAll, hf.symm⟩
    · rw [if_neg hall] at hrow
      rcases List.mem_append.mp hrow with h1 | h1
      · obtain ⟨b, hb, rfl⟩ := List.mem_map.mp h1
        exact Or.inr ⟨b, hb, fun e => hall (e ▸ hb), rfl⟩
      · exact Or.inl (List.mem_singleton.mp h1)

theorem all_row_eq {rs : List LoanRecord} {t : List SummaryRow} (h : create_table rs = some t)
    {row : SummaryRow} (hrow : row ∈ t) (hk : row.key = "All") :
    row = allRow (tableRows (dataCln rs)) (dataCln rs) := by
  rcases mem_table h hrow with h1 | ⟨b, _, hbne, rfl⟩
  · exact h1
  · exact absurd hk hbne

theorem bucket_row_eq {rs : List LoanRecord} {t : List SummaryRow} (h : create_table rs = some t)
    {row : SummaryRow} (hrow : row ∈ t) (hk : row.key ≠ "All") :
    ∃ b ∈ keysOf (dataCln rs), row = bucketRow (dataCln rs) b := by
  rcases mem_table h hrow with h1 | ⟨b, hb, _, rfl⟩
  · rw [h1] at hk
    exact absurd rfl hk
  · exact ⟨b, hb, rfl⟩

theorem oSub_none_right (x : Option ℚ) : oSub x none = none := by
  cases x <;> rfl

theorem oSub_none_left (x : Option ℚ) : oSub none x = none := by
  cases x <;> rfl

theorem key_tableRows (ds : List LoanRecord) : (tableRows ds).map (·.key) = keysOf ds := by
  unfold tableRows
  rw [List.map_map]
  exact List.map_id' _

/-! ### The claims -/

section
attribute [local semireducible] Rat.add Rat.mul Rat.inv Rat.sub Rat.ofScientific

/-- Claim C1 is false on the code: on the spec's three-record scenario,
bucket "A" has missing (NaN) charged-off-net and principal-payments cells
rather than 0 and 1500, bucket "FG" has a missing principal-payments cell
rather than 75, and the "All" row has principal payments 0 (the
NaN-skipping column sum of two NaN cells) rather than 1575 and average
rate 22/175 rather than 0.1829. -/
theorem spec_C1_counterexample :
    ((create_table exScenario).getD []).map
        (fun r => (r.key, r.charged_off_net, r.principal_payments_received,
          r.avg_interest_rate)) =
      [("A", none, none, some (17 / 150)),
       ("FG", some 425, none, some (1 / 5)),
       ("All", some 425, some 0, some (22 / 175))] ∧
    (none : Option ℚ) ≠ some 0 ∧ (none : Option ℚ) ≠ some 1500 ∧
    (none : Option ℚ) ≠ some 75 ∧ (some (0 : ℚ)) ≠ some 1575 ∧
    (some (22 / 175 : ℚ)) ≠ some (0.1829 : ℚ) :=
  ⟨by decide, by decide, by decide, by decide, by decide, by decide⟩

/-- Claim C1 (amended): on the three-record scenario the code returns
bucket "A" with total 3000, fully paid 1000, current 1500, late, charged
off and principal payments all missing, rate 17/150; bucket "FG" with
total 500, charged off 425, the three other filtered cells and principal
payments missing, rate 1/5; and "All" with total 3500, fully paid 1000,
current 1500, late 0, charged off 425, principal payments 0 and rate
22/175. -/
theorem spec_C1_amended : create_table exScenario = some tblScenario := by
  decide

/-- Claim C2 is false on the code: a bucket whose only record is fully
paid has NaN current, late and charged-off cells, so its principal
payments cell is NaN and the accounting identity does not hold on that
row. -/
theorem spec_C2_counterexample :
    ((create_table [recA1]).getD []).head? =
      some ⟨"A", 1000, some 1000, none, none, none, none, 0, some (1 / 10)⟩ ∧
    ¬ rowIdentityHolds ⟨"A", 1000, some 1000, none, none, none, none, 0, some (1 / 10)⟩ := by
  refine ⟨by decide, ?_⟩
  rintro ⟨c, l, x, p, hc, -, -, -, -⟩
  exact Option.noConfusion hc

/-- Claim C2 (amended): on every bucket row (key other than "All") whose
current, late and charged-off-net cells are all present, the principal
payments cell equals total issued minus those three, so the identity
total = current + late + charged-off + principal payments holds exactly;
when one of the three cells is NaN the principal payments cell is NaN as
well (claim C9) and the identity fails on that row. -/
theorem spec_C2_amended (rs : List LoanRecord) (t : List SummaryRow)
    (h : create_table rs = some t) (row : SummaryRow) (hrow : row ∈ t)
    (hk : row.key ≠ "All") (c l x : ℚ) (hc : row.current = some c)
    (hl : row.late = some l) (hx : row.charged_off_net = some x) :
    row.principal_payments_received = some (row.total_issued - c - l - x) ∧
    row.total_issued = c + l + x + (row.total_issued - c - l - x) := by
  refine ⟨?_, by ring⟩
  obtain ⟨b, -, rfl⟩ := bucket_row_eq h hrow hk
  simp only [bucketRow] at hc hl hx ⊢
  unfold pprM
  rw [hc, hl, hx]
  rfl

/-- Witness for C2 at a concrete input whose cells are all present. -/
theorem spec_C2_witness :
    rowThreeA.principal_payments_received =
      some (rowThreeA.total_issued - 100 - 50 - 165) ∧
    rowThreeA.total_issued = 100 + 50 + 165 + (rowThreeA.total_issued - 100 - 50 - 165) :=
  spec_C2_amended exThreeStatus tblThreeStatus (by decide) rowThreeA (by decide)
    (by decide) 100 50 165 (by decide) (by decide) (by decide)

/-- Claim C3: the "All" row's average rate is the principal-weighted
formula over the whole null-grade-filtered record set (the spec-side
definition `specAllAvgRate`), and on a two-bucket example it differs from
the unweighted mean of the bucket rates, so it is not computed from the
per-bucket averages. -/
theorem spec_C3 :
    (∀ rs t, create_table rs = some t → ∀ row ∈ t, row.key = "All" →
        row.avg_interest_rate = specAllAvgRate rs) ∧
    ((create_table exWeighted).getD []).map (fun r => (r.key, r.avg_interest_rate)) =
      [("A", some (1 / 10)), ("B", some (1 / 5)), ("All", some (7 / 40))] ∧
    (7 / 40 : ℚ) ≠ (1 / 10 + 1 / 5) / 2 := by
  refine ⟨?_, by decide, by decide⟩
  intro rs t h row hrow hk
  rw [all_row_eq h hrow hk]
  rfl

/-- Witness for C3 at the two-bucket example. -/
theorem spec_C3_witness :
    allWeighted.avg_interest_rate = specAllAvgRate exWeighted :=
  spec_C3.1 exWeighted tblWeighted (by decide) allWeighted (by decide) rfl

/-- Claim C4: records with a null grade contribute nothing; the table of
the full record list equals the table of its non-null-grade sublist. -/
theorem spec_C4 (rs : List LoanRecord) :
    create_table rs = create_table (rs.filter (fun r => r.grade.isSome)) := by
  unfold create_table
  have hf : dataCln (rs.filter (fun r => r.grade.isSome)) = dataCln rs := by
    unfold dataCln
    rw [List.filter_filter]
    simp
  rw [hf]

theorem grade2_ne_F_G (r : LoanRecord) : grade2 r ≠ "F" ∧ grade2 r ≠ "G" := by
  unfold grade2
  split
  · constructor <;> decide
  case isFalse h =>
    push_neg at h
    exact h

/-- Claim C5: grades "F" and "G" both map to the bucket "FG", and no row
of any produced table is keyed "F" or "G". -/
theorem spec_C5 :
    (∀ r : LoanRecord, r.grade = some "F" ∨ r.grade = some "G" → grade2 r = "FG") ∧
    (∀ rs t, create_table rs = some t → ∀ row ∈ t, row.key ≠ "F" ∧ row.key ≠ "G") := by
  constructor
  · intro r hr
    rcases hr with hr | hr <;> simp [grade2, hr]
  · intro rs t h row hrow
    rcases mem_table h hrow with rfl | ⟨b, hb, -, rfl⟩
    · exact ⟨fun hh => (by decide : ("All" : String) ≠ "F") hh,
        fun hh => (by decide : ("All" : String) ≠ "G") hh⟩
    · obtain ⟨r2, -, rfl⟩ := mem_keysOf.mp hb
      exact grade2_ne_F_G r2

/-- Witness for C5 on a single grade-"F" record. -/
theorem spec_C5_witness :
    grade2 recF3 = "FG" ∧
    (⟨"FG", 500, none, none, none, some 425, none, 20, some (1 / 5)⟩ : SummaryRow).key ≠ "F" :=
  ⟨spec_C5.1 recF3 (Or.inl rfl),
   (spec_C5.2 [recF3] tblSingleF (by decide)
      ⟨"FG", 500, none, none, none, some 425, none, 20, some (1 / 5)⟩ (by decide)).1⟩

/-- Claim C6 is false on the code as stated: when a record's grade is the
literal string "All", that bucket's row is overwritten in place by the
synthetic "All" row, which then sits in sorted position instead of
last. -/
theorem spec_C6_counterexample :
    ((create_table exGradeAll).getD []).map (·.key) = ["All", "B"] ∧
    (((create_table exGradeAll).getD []).map (·.key)).getLast? ≠ some "All" :=
  ⟨by decide, by decide⟩

/-- Claim C6 (amended): provided no record's post-mapping grade is the
literal string "All", the row keys are exactly the distinct post-mapping
grades of the filtered input in strictly ascending order followed by the
synthetic "All" key in last position. -/
theorem spec_C6_amended (rs : List LoanRecord) (t : List SummaryRow)
    (h : create_table rs = some t) (hall : "All" ∉ (dataCln rs).map grade2) :
    t.map (·.key) = keysOf (dataCln rs) ++ ["All"] ∧
    (∀ b, b ∈ keysOf (dataCln rs) ↔ ∃ r ∈ dataCln rs, grade2 r = b) ∧
    (keysOf (dataCln rs)).Sorted (· < ·) ∧
    (t.map (·.key)).getLast? = some "All" := by
  have hallk : "All" ∉ keysOf (dataCln rs) := by
    intro hm
    obtain ⟨r, hr, he⟩ := mem_keysOf.mp hm
    exact hall (List.mem_map.mpr ⟨r, hr, he⟩)
  have h1 : t.map (·.key) = keysOf (dataCln rs) ++ ["All"] := by
    unfold create_table tableOf at h
    split at h
    case isFalse => simp at h
    case isTrue =>
      rw [Option.some.injEq] at h
      subst h
      rw [List.map_append, key_tableRows]
      rfl
  refine ⟨h1, fun b => mem_keysOf, sorted_keysOf _, ?_⟩
  rw [h1]
  exact List.getLast?_concat _

/-- Witness for C6 at the two-bucket example. -/
theorem spec_C6_witness :
    tblWeighted.map (·.key) = keysOf (dataCln exWeighted) ++ ["All"] ∧
    (∀ b, b ∈ keysOf (dataCln exWeighted) ↔ ∃ r ∈ dataCln exWeighted, grade2 r = b) ∧
    (keysOf (dataCln exWeighted)).Sorted (· < ·) ∧
    (tblWeighted.map (·.key)).getLast? = some "All" :=
  spec_C6_amended exWeighted tblWeighted (by decide) (by decide)

/-- Claim C7: the table is produced exactly when every null-grade-filtered
record's rate string parses (a parse failure anywhere aborts with no
table), and a parsed value is used in weighting as its value divided by
100. -/
theorem spec_C7 :
    (∀ rs : List LoanRecord,
        create_table rs = none ↔ ∃ r ∈ dataCln rs, pyFloat (stripPct r.int_rate) = none) ∧
    (∀ (r : LoanRecord) (v : ℚ), pyFloat (stripPct r.int_rate) = some v → rateD r = v / 100) := by
  constructor
  · intro rs
    constructor
    · intro hnone
      unfold create_table tableOf at hnone
      split at hnone
      case isTrue => simp at hnone
      case isFalse hp =>
        rw [List.all_eq_true] at hp
        push_neg at hp
        obtain ⟨r, hr, hne⟩ := hp
        refine ⟨r, hr, ?_⟩
        cases hpf : pyFloat (stripPct r.int_rate) with
        | none => rfl
        | some v => exact absurd (by unfold rateVal; rw [hpf]; rfl) hne
    · rintro ⟨r, hr, hnone⟩
      unfold create_table tableOf
      have hc : ¬ ((dataCln rs).all (fun r => (rateVal r).isSome) = true) := by
        intro hall
        rw [List.all_eq_true] at hall
        have h2 := hall r hr
        unfold rateVal at h2
        rw [hnone] at h2
        exact Bool.noConfusion h2
      rw [if_neg hc]
  · intro r v hv
    unfold rateD rateVal
    rw [hv]
    rfl

/-- Witness for C7: a malformed rate aborts the table, and "10%" is used
as the fraction 10/100. -/
theorem spec_C7_witness :
    create_table [recBadRate] = none ∧ rateD recA1 = 10 / 100 :=
  ⟨(spec_C7.1 [recBadRate]).mpr ⟨recBadRate, by decide, by decide⟩,
   spec_C7.2 recA1 10 (by decide)⟩

/-- Claim C8: dollar cells format as a dollar sign, comma grouping and no
decimals with round-half-even to the nearest dollar (1234567.4 gives
"$1,234,567"), the rate cell formats as value times 100 with two decimals
and a trailing percent sign (0.1325 gives "13.25%"), and row keys, row
order and field order are preserved. -/
theorem spec_C8 :
    dollarFmt (some (1234567.4 : ℚ)) = "$1,234,567" ∧
    pctFmt (some (0.1325 : ℚ)) = "13.25%" ∧
    (∀ t : List SummaryRow, (format_table t).map (·.key) = t.map (·.key)) ∧
    (∀ t : List SummaryRow, (format_table t).length = t.length) ∧
    (∀ r : SummaryRow, format_row r =
      ⟨r.key, dollarFmt (some r.total_issued), dollarFmt r.fully_paid, dollarFmt r.current,
        dollarFmt r.late, dollarFmt r.charged_off_net,
        dollarFmt r.principal_payments_received,
        dollarFmt (some r.interest_payments_received), pctFmt r.avg_interest_rate⟩) ∧
    (∀ q : ℚ, (dollarFmt (some q)).data.head? = some '$') ∧
    (∀ q : ℚ, (pctFmt (some q)).data.getLast? = some '%') := by
  refine ⟨by decide, by decide, ?_, ?_, fun r => rfl, fun q => rfl, ?_⟩
  · intro t
    unfold format_table
    rw [List.map_map]
    rfl
  · intro t
    exact List.length_map _ _
  · intro q
    show ((pctStr (q * 100)).data ++ ['%']).getLast? = some '%'
    exact List.getLast?_concat _

/-- Claim C9 is false as stated: a bucket with no fully-paid record has a
NaN fully-paid cell, yet its principal payments cell is still defined,
because fully-paid does not enter the principal-payments derivation. -/
theorem spec_C9_counterexample :
    ((create_table exThreeStatus).getD []).head? = some rowThreeA ∧
    rowThreeA.fully_paid = none ∧ rowThreeA.principal_payments_received ≠ none :=
  ⟨by decide, by decide, by decide⟩

/-- Claim C9 (amended): on every bucket row, a filtered metric with no
matching record is NaN rather than zero, and the principal payments cell
is NaN whenever the missing metric is current, late or charged-off-net
(a missing fully-paid cell alone leaves principal payments defined). -/
theorem spec_C9_amended (rs : List LoanRecord) (t : List SummaryRow)
    (h : create_table rs = some t) (row : SummaryRow) (hrow : row ∈ t)
    (hk : row.key ≠ "All") :
    ((bucketRecs (dataCln rs) row.key).filter isFullyPaidStatus = [] →
      row.fully_paid = none) ∧
    ((bucketRecs (dataCln rs) row.key).filter isCurrentStatus = [] → row.current = none) ∧
    ((bucketRecs (dataCln rs) row.key).filter isLateStatus = [] → row.late = none) ∧
    ((bucketRecs (dataCln rs) row.key).filter isChargedOffStatus = [] →
      row.charged_off_net = none) ∧
    ((row.current = none ∨ row.late = none ∨ row.charged_off_net = none) →
      row.principal_payments_received = none) := by
  obtain ⟨b, -, rfl⟩ := bucket_row_eq h hrow hk
  simp only [bucketRow]
  refine ⟨?_, ?_, ?_, ?_, ?_⟩
  · intro he; unfold fpaid condSum; rw [if_pos he]
  · intro he; unfold curr condSum; rw [if_pos he]
  · intro he; unfold lateM condSum; rw [if_pos he]
  · intro he; unfold chOff condSum; rw [if_pos he]
  · intro hor
    unfold pprM
    rcases hor with hc | hl | hx
    · rw [hc, oSub_none_right, oSub_none_left, oSub_none_left]
    · rw [hl, oSub_none_right, oSub_none_left]
    · rw [hx, oSub_none_right]

/-- Witness for C9: the bucket of `exThreeStatus` has no fully-paid
record, and its fully-paid cell is indeed NaN. -/
theorem spec_C9_witness : rowThreeA.fully_paid = none :=
  (spec_C9_amended exThreeStatus tblThreeStatus (by decide) rowThreeA (by decide)
    (by decide)).1 (by decide)

/-- Claim C10: every dollar column of the "All" row is the NaN-skipping
sum of that column over the bucket rows, and every such cell of the "All"
row is defined. -/
theorem spec_C10 (rs : List LoanRecord) (t : List SummaryRow)
    (h : create_table rs = some t) (row : SummaryRow) (hrow : row ∈ t)
    (hk : row.key = "All") :
    row.total_issued = ((tableRows (dataCln rs)).map (·.total_issued)).sum ∧
    row.fully_paid =
      some (((tableRows (dataCln rs)).map (fun r => r.fully_paid.getD 0)).sum) ∧
    row.current = some (((tableRows (dataCln rs)).map (fun r => r.current.getD 0)).sum) ∧
    row.late = some (((tableRows (dataCln rs)).map (fun r => r.late.getD 0)).sum) ∧
    row.charged_off_net =
      some (((tableRows (dataCln rs)).map (fun r => r.charged_off_net.getD 0)).sum) ∧
    row.principal_payments_received =
      some (((tableRows (dataCln rs)).map
        (fun r => r.principal_payments_received.getD 0)).sum) ∧
    row.interest_payments_received =
      ((tableRows (dataCln rs)).map (·.interest_payments_received)).sum := by
  rw [all_row_eq h hrow hk]
  exact ⟨rfl, rfl, rfl, rfl, rfl, rfl, rfl⟩

/-- Witness for C10 on the scenario input, whose bucket rows contain NaN
cells while all "All" cells are defined. -/
theorem spec_C10_witness :
    allScen.total_issued = ((tableRows (dataCln exScenario)).map (·.total_issued)).sum ∧
    allScen.fully_paid =
      some (((tableRows (dataCln exScenario)).map (fun r => r.fully_paid.getD 0)).sum) ∧
    allScen.current =
      some (((tableRows (dataCln exScenario)).map (fun r => r.current.getD 0)).sum) ∧
    allScen.late =
      some (((tableRows (dataCln exScenario)).map (fun r => r.late.getD 0)).sum) ∧
    allScen.charged_off_net =
      some (((tableRows (dataCln exScenario)).map (fun r => r.charged_off_net.getD 0)).sum) ∧
    allScen.principal_payments_received =
      some (((tableRows (dataCln exScenario)).map
        (fun r => r.principal_payments_received.getD 0)).sum) ∧
    allScen.interest_payments_received =
      ((tableRows (dataCln exScenario)).map (·.interest_payments_received)).sum :=
  spec_C10 exScenario tblScenario (by decide) allScen (by decide) rfl

end
